import Mathlib

/-!
# Verification of the insurance-quote algorithm

Shallow embedding of `src/insurance_quote.py` and the static weight tables
in `src/weights/policy_weights.py` and `src/weights/discount_weights.py`.

Modelling conventions:
* Python floats are modelled as exact rationals (`ℚ`); the spec explicitly
  treats the formulas, not the rounded digits, as normative.
* Python dicts appearing as static literals are modelled as association
  lists (`List (String × _)`) with first-match lookup; the literals contain
  no duplicate keys, so this agrees with dict semantics.
* A Python `None` argument (the dataclass defaults for `add_ons` and
  `discounts`) is modelled as `Option.none`.
* An uncaught Python exception escaping a function is modelled by
  `Except.error` carrying the exception class name; a normal return is
  `Except.ok`.  `calc_discounts` has no uncaught-exception path, so it
  returns `ℚ` directly.
-/

namespace InsuranceQuote

/-- First-match association-list lookup, mirroring Python `dict.get(k, None)`
for the literal dicts of the weight modules. -/
def lookup {α : Type} (m : List (String × α)) (k : String) : Option α :=
  match m with
  | [] => none
  | (k', v) :: rest => if k = k' then some v else lookup rest k

/-- One coverage-type entry of `PolicyAddOnMap.POLICY_ADD_ON_MAP`:
a base `weight` and the per-add-on weight sub-table. -/
structure PolicyObj where
  weight : ℚ
  add_ons : List (String × ℚ)
deriving DecidableEq, Repr

/-- The `liability` entry of `POLICY_ADD_ON_MAP`. -/
def liabilityObj : PolicyObj :=
  { weight := 1.0,
    add_ons := [ ("roadside_assistance", 0.15),
                 ("rental_reimbursement", 0.1),
                 ("glass_coverage", 0.05) ] }

/-- The `full_coverage` entry of `POLICY_ADD_ON_MAP`. -/
def fullCoverageObj : PolicyObj :=
  { weight := 1.5,
    add_ons := [ ("roadside_assistance", 0.15),
                 ("rental_reimbursement", 0.1),
                 ("gap_coverage", 0.05),
                 ("glass_coverage", 0.05) ] }

/-- The `collision_only` entry of `POLICY_ADD_ON_MAP`. -/
def collisionOnlyObj : PolicyObj :=
  { weight := 1.2,
    add_ons := [ ("rental_reimbursement", 0.1),
                 ("glass_coverage", 0.05) ] }

/-- `PolicyAddOnMap.POLICY_ADD_ON_MAP` from `src/weights/policy_weights.py`. -/
def POLICY_ADD_ON_MAP : List (String × PolicyObj) :=
  [ ("liability", liabilityObj),
    ("full_coverage", fullCoverageObj),
    ("collision_only", collisionOnlyObj) ]

/-- The `liability` entry of `POLICY_DISCOUNT_MAP`. -/
def liabilityDiscounts : List (String × ℚ) :=
  [ ("multi_policy", 0.1),
    ("low_mileage", 0.05) ]

/-- The `full_coverage` entry of `POLICY_DISCOUNT_MAP`. -/
def fullCoverageDiscounts : List (String × ℚ) :=
  [ ("multi_policy", 0.1),
    ("safe_driver", 0.12),
    ("anti_theft", 0.03) ]

/-- The `collision_only` entry of `POLICY_DISCOUNT_MAP`. -/
def collisionOnlyDiscounts : List (String × ℚ) :=
  [ ("safe_driver", 0.12),
    ("low_mileage", 0.05) ]

/-- `PolicyDiscountMap.POLICY_DISCOUNT_MAP` from
`src/weights/discount_weights.py`. -/
def POLICY_DISCOUNT_MAP : List (String × List (String × ℚ)) :=
  [ ("liability", liabilityDiscounts),
    ("full_coverage", fullCoverageDiscounts),
    ("collision_only", collisionOnlyDiscounts) ]

/-- `calc_violation_points`: `violations * 0.01 + 0.005`. -/
def calc_violation_points (violations : ℚ) : ℚ :=
  violations * 0.01 + 0.005

/-- `calc_theft_score`. -/
def calc_theft_score (vehicle_theft_rate_score location_risk_score
    anti_theft_feature_score : ℚ) : ℚ :=
  vehicle_theft_rate_score + location_risk_score - anti_theft_feature_score

/-- `calc_repair_score`. -/
def calc_repair_score (brand_type_score repair_complex_score parts_score
    vehicle_age : ℚ) : ℚ :=
  brand_type_score + repair_complex_score + parts_score + vehicle_age / 2

/-- `calc_saftey_score` (source spelling). -/
def calc_saftey_score (crash_test_ratings active_saftey_features
    passive_saftey_features : ℚ) : ℚ :=
  crash_test_ratings + active_saftey_features * 2 + passive_saftey_features

/-- `calc_accident_points`. -/
def calc_accident_points (at_fault_major at_fault_minor no_fault hit_n_runs
    duis : ℚ) : ℚ :=
  at_fault_major * 3 + at_fault_minor * 1.5 + no_fault * 0.5 +
    hit_n_runs * 4 + duis * 5

/-- `calc_crime_score`. -/
def calc_crime_score (crime_level_factor anti_theft_adjuestment : ℚ) : ℚ :=
  crime_level_factor - anti_theft_adjuestment

/-- `calc_base_rate`: constant 320. -/
def calc_base_rate : ℚ := 320

/-- `calc_driver_risk`.  The source computes
`years_clean_points = -(years_clean * 0.01)` and then subtracts
`0.01 * years_clean_points`, the double negation preserved literally. -/
def calc_driver_risk (accident_points violation_points years_clean : ℚ)
    (age : ℤ) : ℚ :=
  let age_adjustment : ℚ :=
    if age < 25 then 0.15 else if age < 65 then 0.0 else 0.10
  let years_clean_points : ℚ := -(years_clean * 0.01)
  1 + 0.02 * accident_points + 0.015 * violation_points -
    0.01 * years_clean_points + age_adjustment

/-- `calc_vehicle_risk`. -/
def calc_vehicle_risk (repair_score theft_score saftey_score : ℚ) : ℚ :=
  1 + (repair_score + theft_score - saftey_score) / 100

/-- `calc_location_risk`. -/
def calc_location_risk (accident_points crime_Score : ℚ) : ℚ :=
  1 + 0.02 * accident_points + 0.025 * crime_Score

/-- The add-on accumulation loop of `calc_policy_adjustment`.  The body
`adjustments += policy_obj["add_ons"][add_on]` raises `KeyError` on an
unrecognized key; the `except` sits OUTSIDE the loop, so the loop aborts
there and the partial sum accumulated so far is kept. -/
def add_on_loop (tbl : List (String × ℚ)) : List String → ℚ
  | [] => 0
  | k :: ks =>
    match lookup tbl k with
    | none => 0
    | some w => w + add_on_loop tbl ks

/-- The whole `try` block of `calc_policy_adjustment`: iterating over a
`None` add-on list raises `TypeError`, which the same `except` catches with
`adjustments` still 0. -/
def add_on_total (tbl : List (String × ℚ)) : Option (List String) → ℚ
  | none => 0
  | some l => add_on_loop tbl l

/-- `calc_policy_adjustment`.  `POLICY_ADD_ON_MAP.get(policy_type, None)`
returning `None` is followed by the unguarded subscript
`policy_obj["weight"]`, which raises `TypeError` outside any `try`:
that exception escapes to the caller (`Except.error`). -/
def calc_policy_adjustment (policy_type : String)
    (add_ons : Option (List String)) : Except String ℚ :=
  match lookup POLICY_ADD_ON_MAP policy_type with
  | none => .error "TypeError"
  | some policy_obj =>
    if policy_obj.weight = -1 then .ok (-1)
    else .ok (policy_obj.weight + add_on_total policy_obj.add_ons add_ons)

/-- The discount accumulation loop of `calc_discounts`: a per-key
`discount_obj.get(discount)` returning `None` is logged and skipped, and
the loop continues with the remaining keys. -/
def discount_loop (tbl : List (String × ℚ)) : List String → ℚ
  | [] => 0
  | k :: ks =>
    (match lookup tbl k with
     | none => 0
     | some v => v) + discount_loop tbl ks

/-- `calc_discounts`.  An absent coverage type returns 0.0 after the
explicit `is None` check; a `None` discount list raises `TypeError` inside
the `try`, caught with `discount_total` still 0.0.  No exception escapes. -/
def calc_discounts (policy_type : String)
    (discounts : Option (List String)) : ℚ :=
  match lookup POLICY_DISCOUNT_MAP policy_type with
  | none => 0
  | some discount_obj =>
    match discounts with
    | none => 0
    | some l => discount_loop discount_obj l

/-- `DriverInputs` (`src/inputs/general_inputs.py`). -/
structure DriverInputs where
  at_fault_major : ℤ := -1
  at_fault_minor : ℤ := -1
  no_fault : ℤ := -1
  hit_n_runs : ℤ := -1
  duis : ℤ := -1
  age : ℤ := -1
  years_clean : ℤ := 1
  violations : ℤ := -1
deriving DecidableEq, Repr

/-- `VehicleInputs`. -/
structure VehicleInputs where
  brand_type_score : ℤ := -1
  repair_complexity_score : ℤ := -1
  parts_score : ℤ := -1
  vehicle_age : ℤ := -1
  theft_score : ℤ := -1
  anti_theft_feature_score : ℤ := -1
  crash_test_rating : ℤ := -1
  active_safety_features : ℤ := -1
  passive_safety_features : ℤ := -1
deriving DecidableEq, Repr

/-- `LocationInputs`. -/
structure LocationInputs where
  crime_level_factor : ℤ := -1
  anti_theft_adjustment : ℤ := -1
deriving DecidableEq, Repr

/-- `PolicyInputs`; `add_ons` defaults to `None`. -/
structure PolicyInputs where
  coverage_type : String := ""
  add_ons : Option (List String) := none
deriving DecidableEq, Repr

/-- `DiscountsInputs`; `discounts` defaults to `None`. -/
structure DiscountsInputs where
  discounts : Option (List String) := none
deriving DecidableEq, Repr

/-- `QuoteInputs`: the aggregate request. -/
structure QuoteInputs where
  driver_inputs : DriverInputs
  vehicle_inputs : VehicleInputs
  location_inputs : LocationInputs
  policy_inputs : PolicyInputs
  discount_inputs : DiscountsInputs
deriving DecidableEq, Repr

/-- The result dict of `calculate_quote`, flattened. -/
structure QuoteResult where
  base_rate : ℚ
  original_quote : ℚ
  total_discount : ℚ
  quote : ℚ
  driver_risk : ℚ
  vehicle_risk : ℚ
  location_risk : ℚ
  policy_adjustment : ℚ
  discount : ℚ
  repair_score : ℚ
  theft_score : ℚ
  safety_score : ℚ
deriving DecidableEq, Repr

/-- `calculate_quote`.  `check_defaults` only emits log lines and is
omitted.  The `calc_policy_adjustment` call may let a `TypeError` escape,
which aborts the whole quote computation (`Except.error`). -/
def calculate_quote (q : QuoteInputs) : Except String QuoteResult :=
  let bp := calc_base_rate
  let accident_points := calc_accident_points
    (q.driver_inputs.at_fault_major : ℚ) (q.driver_inputs.at_fault_minor : ℚ)
    (q.driver_inputs.no_fault : ℚ) (q.driver_inputs.hit_n_runs : ℚ)
    (q.driver_inputs.duis : ℚ)
  let violation_points := calc_violation_points (q.driver_inputs.violations : ℚ)
  let dr := calc_driver_risk accident_points violation_points
    (q.driver_inputs.years_clean : ℚ) q.driver_inputs.age
  let crime_score := calc_crime_score
    (q.location_inputs.crime_level_factor : ℚ)
    (q.location_inputs.anti_theft_adjustment : ℚ)
  let lr := calc_location_risk accident_points crime_score
  let repair_score := calc_repair_score
    (q.vehicle_inputs.brand_type_score : ℚ)
    (q.vehicle_inputs.repair_complexity_score : ℚ)
    (q.vehicle_inputs.parts_score : ℚ) (q.vehicle_inputs.vehicle_age : ℚ)
  let theft_score := calc_theft_score
    (q.vehicle_inputs.theft_score : ℚ) lr
    (q.vehicle_inputs.anti_theft_feature_score : ℚ)
  let safety_score := calc_saftey_score
    (q.vehicle_inputs.crash_test_rating : ℚ)
    (q.vehicle_inputs.active_safety_features : ℚ)
    (q.vehicle_inputs.passive_safety_features : ℚ)
  let vr := calc_vehicle_risk repair_score theft_score safety_score
  match calc_policy_adjustment q.policy_inputs.coverage_type
      q.policy_inputs.add_ons with
  | .error e => .error e
  | .ok policy_adjustment =>
    let dd := calc_discounts q.policy_inputs.coverage_type
      q.discount_inputs.discounts
    let quote := bp * dr * vr * lr * policy_adjustment
    let discounted_total := quote * dd
    let adjusted_quote := quote - discounted_total
    .ok { base_rate := bp
          original_quote := quote
          total_discount := discounted_total
          quote := adjusted_quote
          driver_risk := dr
          vehicle_risk := vr
          location_risk := lr
          policy_adjustment := policy_adjustment
          discount := dd
          repair_score := repair_score
          theft_score := theft_score
          safety_score := safety_score }

/-- The reference `DriverInputs` built in `src/test.py`. -/
def refDriver : DriverInputs :=
  { at_fault_major := 1, at_fault_minor := 1, no_fault := 2, hit_n_runs := 0,
    duis := 0, age := 23, years_clean := 5, violations := 1 }

/-- The reference `VehicleInputs` built in `src/test.py`. -/
def refVehicle : VehicleInputs :=
  { brand_type_score := 3, repair_complexity_score := 2, parts_score := 4,
    vehicle_age := 15, theft_score := 5, anti_theft_feature_score := 2,
    crash_test_rating := 4, active_safety_features := 2,
    passive_safety_features := 3 }

/-- The reference `LocationInputs` built in `src/test.py`. -/
def refLocation : LocationInputs :=
  { crime_level_factor := 4, anti_theft_adjustment := 2 }

/-- The reference `PolicyInputs` built in `src/test.py`. -/
def refPolicy : PolicyInputs :=
  { coverage_type := "full_coverage",
    add_ons := some ["roadside_assistance", "rental_reimbursement"] }

/-- The reference `DiscountsInputs` built in `src/test.py`
(`multi_policy`, `safe_driver`, `anti_theft`). -/
def refDiscounts : DiscountsInputs :=
  { discounts := some ["multi_policy", "safe_driver", "anti_theft"] }

/-- The full reference `QuoteInputs` of `src/test.py`. -/
def refInput : QuoteInputs :=
  { driver_inputs := refDriver, vehicle_inputs := refVehicle,
    location_inputs := refLocation, policy_inputs := refPolicy,
    discount_inputs := refDiscounts }

/-- The `QuoteResult` that the spec's reference derivation predicts for
`refInput`: gross = 320 × driverRisk × vehicleRisk × locationRisk × 1.75,
discount amount = gross × 0.25, net = gross − gross × 0.25 = gross × 0.75. -/
def refResult : QuoteResult :=
  { base_rate := 320,
    original_quote := 320 * 1.260725 * 1.0966 * 1.16 * 1.75,
    total_discount := 320 * 1.260725 * 1.0966 * 1.16 * 1.75 * 0.25,
    quote := 320 * 1.260725 * 1.0966 * 1.16 * 1.75 * 0.75,
    driver_risk := 1.260725,
    vehicle_risk := 1.0966,
    location_risk := 1.16,
    policy_adjustment := 1.75,
    discount := 0.25,
    repair_score := 16.5,
    theft_score := 4.16,
    safety_score := 11 }

/-! ## Helper lemmas -/

theorem lookup_mem {α : Type} {m : List (String × α)} {k : String} {v : α}
    (h : lookup m k = some v) : (k, v) ∈ m := by
  induction m with
  | nil => simp [lookup] at h
  | cons p rest ih =>
    obtain ⟨k', v'⟩ := p
    simp only [lookup] at h
    by_cases hk : k = k'
    · simp [hk] at h
      simp [hk, h]
    · simp [hk] at h
      exact List.mem_cons_of_mem _ (ih h)

/-- The skip-and-continue discount loop computes the sum of the values of
all recognized keys. -/
theorem discount_loop_eq (tbl : List (String × ℚ)) (l : List String) :
    discount_loop tbl l = (l.filterMap (lookup tbl)).sum := by
  induction l with
  | nil => simp [discount_loop]
  | cons k ks ih =>
    simp only [discount_loop, List.filterMap_cons]
    cases h : lookup tbl k <;> simp [h, ih]

/-- The abort-on-first-failure add-on loop computes the sum of the values
of the longest recognized prefix of the key list. -/
theorem add_on_loop_eq (tbl : List (String × ℚ)) (l : List String) :
    add_on_loop tbl l =
      (((l.takeWhile fun k => (lookup tbl k).isSome).filterMap
        (lookup tbl)).sum) := by
  induction l with
  | nil => simp [add_on_loop]
  | cons k ks ih =>
    simp only [add_on_loop, List.takeWhile_cons]
    cases h : lookup tbl k <;> simp [h, List.filterMap_cons, ih]

/-! ## Claim theorems -/

/-- Claim C1 (code bug): the claim says a coverage type absent from the
policy table makes `calc_policy_adjustment` fail through a returned value
without an unhandled exception escaping.  In the source,
`POLICY_ADD_ON_MAP.get(policy_type, None)` returns `None` and the unguarded
subscript `policy_obj["weight"]` then raises `TypeError` outside any `try`:
the exception escapes to the caller for EVERY absent coverage type. -/
theorem calc_policy_adjustment_missing_type_raises (ct : String)
    (adds : Option (List String))
    (h : lookup POLICY_ADD_ON_MAP ct = none) :
    calc_policy_adjustment ct adds = .error "TypeError" := by
  simp [calc_policy_adjustment, h]

/-- Witness: the concrete absent coverage type `"umbrella"` lets the
`TypeError` escape. -/
theorem calc_policy_adjustment_missing_type_raises_witness :
    calc_policy_adjustment "umbrella" (some []) = .error "TypeError" :=
  calc_policy_adjustment_missing_type_raises "umbrella" (some [])
    (by simp [lookup, POLICY_ADD_ON_MAP])

/-- Counterexample to claim C2 as stated: with add-on list
`["towing", "roadside_assistance"]` under `full_coverage`, the unrecognized
key `"towing"` aborts the loop (the `except` is outside the `for`), so the
recognized key `"roadside_assistance"` after it is NOT counted: the code
returns 1.5, not the claimed 1.5 + 0.15. -/
theorem calc_policy_adjustment_no_skip_counterexample :
    calc_policy_adjustment "full_coverage"
        (some ["towing", "roadside_assistance"]) = .ok 1.5 ∧
    (1.5 : ℚ) ≠ 1.5 + 0.15 := by
  constructor
  · simp [calc_policy_adjustment, lookup, POLICY_ADD_ON_MAP, fullCoverageObj,
      add_on_total, add_on_loop]
    norm_num
  · norm_num

/-- Claim C2 (amended): for a coverage type present in the policy table
whose base weight is not the −1 sentinel, `calc_policy_adjustment` returns
the base weight plus the sum of the weights of the recognized add-on keys
up to but NOT including the first unrecognized key; the first unrecognized
key aborts processing of the remaining add-ons (the exception is caught
once outside the loop), and the partial sum is returned without error. -/
theorem calc_policy_adjustment_recognized_head_run (ct : String)
    (obj : PolicyObj) (l : List String)
    (hobj : lookup POLICY_ADD_ON_MAP ct = some obj)
    (hw : obj.weight ≠ -1) :
    calc_policy_adjustment ct (some l) =
      .ok (obj.weight +
        ((l.takeWhile fun k => (lookup obj.add_ons k).isSome).filterMap
          (lookup obj.add_ons)).sum) := by
  simp [calc_policy_adjustment, hobj, hw, add_on_total, add_on_loop_eq]

/-- Witness: the amended C2 statement evaluated at `full_coverage` with an
unrecognized key first in the list. -/
theorem calc_policy_adjustment_recognized_head_run_witness :
    calc_policy_adjustment "full_coverage"
        (some ["towing", "roadside_assistance"]) =
      .ok (fullCoverageObj.weight +
        (((["towing", "roadside_assistance"].takeWhile fun k =>
            (lookup fullCoverageObj.add_ons k).isSome).filterMap
          (lookup fullCoverageObj.add_ons)).sum)) :=
  calc_policy_adjustment_recognized_head_run "full_coverage" fullCoverageObj
    ["towing", "roadside_assistance"]
    (by simp [lookup, POLICY_ADD_ON_MAP])
    (by norm_num [fullCoverageObj])

/-- Claim C3: `calculate_quote` composes gross = base rate × driver risk ×
vehicle risk × location risk × policy adjustment, discount amount =
gross × discount fraction, net = gross − discount amount; and on the
reference input of `src/test.py` it yields accidentPoints = 5.5,
violationPoints = 0.015, crimeScore = 2, locationRisk = 1.16,
repairScore = 16.5, theftScore = 4.16, safetyScore = 11,
vehicleRisk = 1.0966, driverRisk = 1.260725, policyAdjustment = 1.75,
discountFraction = 0.25, gross = 320 × 1.260725 × 1.0966 × 1.16 × 1.75 and
net = gross × 0.75, exactly as the derivation states. -/
theorem calculate_quote_reference_case :
    (∀ q r, calculate_quote q = .ok r →
      r.original_quote = calc_base_rate * r.driver_risk * r.vehicle_risk *
        r.location_risk * r.policy_adjustment ∧
      r.total_discount = r.original_quote * r.discount ∧
      r.quote = r.original_quote - r.total_discount) ∧
    calc_accident_points 1 1 2 0 0 = 5.5 ∧
    calc_violation_points 1 = 0.015 ∧
    calc_crime_score 4 2 = 2 ∧
    calc_location_risk 5.5 2 = 1.16 ∧
    calc_repair_score 3 2 4 15 = 16.5 ∧
    calc_theft_score 5 1.16 2 = 4.16 ∧
    calc_saftey_score 4 2 3 = 11 ∧
    calc_vehicle_risk 16.5 4.16 11 = 1.0966 ∧
    calc_driver_risk 5.5 0.015 5 23 = 1.260725 ∧
    calculate_quote refInput = .ok refResult := by
  refine ⟨?_, ?_, ?_, ?_, ?_, ?_, ?_, ?_, ?_, ?_, ?_⟩
  · intro q r h
    simp only [calculate_quote] at h
    cases hpa : calc_policy_adjustment q.policy_inputs.coverage_type
        q.policy_inputs.add_ons with
    | error e => rw [hpa] at h; simp at h
    | ok pa =>
      rw [hpa] at h
      simp only [Except.ok.injEq] at h
      subst h
      exact ⟨rfl, rfl, rfl⟩
  · norm_num [calc_accident_points]
  · norm_num [calc_violation_points]
  · norm_num [calc_crime_score]
  · norm_num [calc_location_risk]
  · norm_num [calc_repair_score]
  · norm_num [calc_theft_score]
  · norm_num [calc_saftey_score]
  · norm_num [calc_vehicle_risk]
  · norm_num [calc_driver_risk]
  · simp [calculate_quote, refInput, refDriver, refVehicle, refLocation,
      refPolicy, refDiscounts, refResult, calc_base_rate,
      calc_accident_points, calc_violation_points, calc_driver_risk,
      calc_crime_score, calc_location_risk, calc_repair_score,
      calc_theft_score, calc_saftey_score, calc_vehicle_risk,
      calc_policy_adjustment, calc_discounts, lookup, add_on_total,
      add_on_loop, discount_loop, POLICY_ADD_ON_MAP, POLICY_DISCOUNT_MAP,
      liabilityObj, fullCoverageObj, collisionOnlyObj, liabilityDiscounts,
      fullCoverageDiscounts, collisionOnlyDiscounts]
    norm_num

/-- Witness: the compositional conjunct of C3 instantiated at the
reference input and its computed result. -/
theorem calculate_quote_reference_case_witness :
    refResult.original_quote = calc_base_rate * refResult.driver_risk *
      refResult.vehicle_risk * refResult.location_risk *
      refResult.policy_adjustment ∧
    refResult.total_discount = refResult.original_quote * refResult.discount ∧
    refResult.quote = refResult.original_quote - refResult.total_discount :=
  calculate_quote_reference_case.1 refInput refResult
    calculate_quote_reference_case.2.2.2.2.2.2.2.2.2.2

/-- Claim C4: for all accident points, violation points, years clean and
age, `calc_driver_risk` equals
1 + 0.02·ap + 0.015·vp − 0.01·(−0.01·yc) + ageAdjustment, whose
double-negated years-clean term is a net +0.0001·yc, with ageAdjustment
0.15 for age < 25, 0.0 for 25 ≤ age < 65 and 0.10 for age ≥ 65; in
particular at ages 24, 25, 64 and 65 the adjustment is +0.15, +0.0, +0.0
and +0.10 respectively. -/
theorem calc_driver_risk_formula (ap vp yc : ℚ) (age : ℤ) :
    calc_driver_risk ap vp yc age =
      1 + 0.02 * ap + 0.015 * vp - 0.01 * (-0.01 * yc) +
        (if age < 25 then 0.15 else if age < 65 then 0.0 else 0.10) ∧
    calc_driver_risk ap vp yc age =
      1 + 0.02 * ap + 0.015 * vp + 0.0001 * yc +
        (if age < 25 then 0.15 else if age < 65 then 0.0 else 0.10) ∧
    calc_driver_risk ap vp yc 24 =
      1 + 0.02 * ap + 0.015 * vp + 0.0001 * yc + 0.15 ∧
    calc_driver_risk ap vp yc 25 =
      1 + 0.02 * ap + 0.015 * vp + 0.0001 * yc + 0.0 ∧
    calc_driver_risk ap vp yc 64 =
      1 + 0.02 * ap + 0.015 * vp + 0.0001 * yc + 0.0 ∧
    calc_driver_risk ap vp yc 65 =
      1 + 0.02 * ap + 0.015 * vp + 0.0001 * yc + 0.10 := by
  refine ⟨?_, ?_, ?_, ?_, ?_, ?_⟩ <;>
    simp only [calc_driver_risk] <;> norm_num <;> ring_nf

/-- Claim C5: `calc_discounts` returns 0.0 without aborting for every
coverage type absent from the discount table; for every present coverage
type it skips unrecognized keys individually and returns the sum of the
fractions of all recognized keys; and
`calc_discounts "liability" ["safe_driver"]` = 0. -/
theorem calc_discounts_skip_and_continue :
    (∀ ct ds, lookup POLICY_DISCOUNT_MAP ct = none →
      calc_discounts ct ds = 0) ∧
    (∀ ct tbl ds, lookup POLICY_DISCOUNT_MAP ct = some tbl →
      calc_discounts ct (some ds) = (ds.filterMap (lookup tbl)).sum) ∧
    calc_discounts "liability" (some ["safe_driver"]) = 0 := by
  refine ⟨?_, ?_, ?_⟩
  · intro ct ds h
    simp [calc_discounts, h]
  · intro ct tbl ds h
    simp [calc_discounts, h, discount_loop_eq]
  · simp [calc_discounts, lookup, POLICY_DISCOUNT_MAP, liabilityDiscounts,
      discount_loop]

/-- Witness: C5 instantiated at an absent coverage type and at
`full_coverage` with an unrecognized key in the middle of the list. -/
theorem calc_discounts_skip_and_continue_witness :
    calc_discounts "umbrella" (some ["multi_policy"]) = 0 ∧
    calc_discounts "full_coverage"
        (some ["multi_policy", "towing", "anti_theft"]) =
      ((["multi_policy", "towing", "anti_theft"].filterMap
        (lookup fullCoverageDiscounts)).sum) :=
  ⟨calc_discounts_skip_and_continue.1 "umbrella" (some ["multi_policy"])
      (by simp [lookup, POLICY_DISCOUNT_MAP]),
   calc_discounts_skip_and_continue.2.1 "full_coverage" fullCoverageDiscounts
      ["multi_policy", "towing", "anti_theft"]
      (by simp [lookup, POLICY_DISCOUNT_MAP])⟩

/-- Claim C6: each of the three coverage types has exactly one entry in
the policy add-on table and exactly one entry in the discount table; no
stored base weight equals the −1 sentinel; and for every coverage type
present in the policy table `calc_policy_adjustment` takes the normal
(non-sentinel) path, returning base weight plus the accumulated add-on
adjustments — the InvalidPolicyWeight branch is never taken. -/
theorem coverage_tables_invariant :
    POLICY_ADD_ON_MAP.countP (fun p => p.1 == "liability") = 1 ∧
    POLICY_ADD_ON_MAP.countP (fun p => p.1 == "full_coverage") = 1 ∧
    POLICY_ADD_ON_MAP.countP (fun p => p.1 == "collision_only") = 1 ∧
    POLICY_DISCOUNT_MAP.countP (fun p => p.1 == "liability") = 1 ∧
    POLICY_DISCOUNT_MAP.countP (fun p => p.1 == "full_coverage") = 1 ∧
    POLICY_DISCOUNT_MAP.countP (fun p => p.1 == "collision_only") = 1 ∧
    (∀ p ∈ POLICY_ADD_ON_MAP, p.2.weight ≠ -1) ∧
    (∀ ct obj adds, lookup POLICY_ADD_ON_MAP ct = some obj →
      calc_policy_adjustment ct adds =
        .ok (obj.weight + add_on_total obj.add_ons adds)) := by
  refine ⟨?_, ?_, ?_, ?_, ?_, ?_, ?_, ?_⟩
  · simp [POLICY_ADD_ON_MAP, List.countP_cons]
  · simp [POLICY_ADD_ON_MAP, List.countP_cons]
  · simp [POLICY_ADD_ON_MAP, List.countP_cons]
  · simp [POLICY_DISCOUNT_MAP, List.countP_cons]
  · simp [POLICY_DISCOUNT_MAP, List.countP_cons]
  · simp [POLICY_DISCOUNT_MAP, List.countP_cons]
  · intro p hp
    simp [POLICY_ADD_ON_MAP] at hp
    rcases hp with rfl | rfl | rfl <;>
      norm_num [liabilityObj, fullCoverageObj, collisionOnlyObj]
  · intro ct obj adds h
    have hm := lookup_mem h
    simp [POLICY_ADD_ON_MAP] at hm
    rcases hm with ⟨rfl, rfl⟩ | ⟨rfl, rfl⟩ | ⟨rfl, rfl⟩ <;>
      simp [calc_policy_adjustment, lookup, POLICY_ADD_ON_MAP,
        liabilityObj, fullCoverageObj, collisionOnlyObj] <;> norm_num

/-- Witness: the hypothesis-bearing conjuncts of C6 instantiated at the
`liability` entry. -/
theorem coverage_tables_invariant_witness :
    liabilityObj.weight ≠ -1 ∧
    calc_policy_adjustment "liability" none =
      .ok (liabilityObj.weight + add_on_total liabilityObj.add_ons none) :=
  ⟨coverage_tables_invariant.2.2.2.2.2.2.1 ("liability", liabilityObj)
      (by simp [POLICY_ADD_ON_MAP]),
   coverage_tables_invariant.2.2.2.2.2.2.2 "liability" liabilityObj none
      (by simp [lookup, POLICY_ADD_ON_MAP])⟩

/-- Claim C7: `calc_policy_adjustment "full_coverage"
["roadside_assistance", "rental_reimbursement"]` returns exactly
1.5 + 0.15 + 0.1 = 1.75, from the static table's base weight and the two
add-on weights. -/
theorem calc_policy_adjustment_full_coverage_value :
    calc_policy_adjustment "full_coverage"
        (some ["roadside_assistance", "rental_reimbursement"]) =
      .ok (1.5 + 0.15 + 0.1) ∧
    (1.5 + 0.15 + 0.1 : ℚ) = 1.75 := by
  constructor
  · simp [calc_policy_adjustment, lookup, POLICY_ADD_ON_MAP, fullCoverageObj,
      add_on_total, add_on_loop]
    norm_num
  · norm_num

/-- Claim C8: for all non-negative inputs, `calc_accident_points` is
non-negative and monotonically non-decreasing in each of its five
arguments independently. -/
theorem calc_accident_points_nonneg_mono
    (a b c d e a' b' c' d' e' : ℚ)
    (ha : 0 ≤ a) (hb : 0 ≤ b) (hc : 0 ≤ c) (hd : 0 ≤ d) (he : 0 ≤ e)
    (ha' : a ≤ a') (hb' : b ≤ b') (hc' : c ≤ c') (hd' : d ≤ d')
    (he' : e ≤ e') :
    0 ≤ calc_accident_points a b c d e ∧
    calc_accident_points a b c d e ≤ calc_accident_points a' b c d e ∧
    calc_accident_points a b c d e ≤ calc_accident_points a b' c d e ∧
    calc_accident_points a b c d e ≤ calc_accident_points a b c' d e ∧
    calc_accident_points a b c d e ≤ calc_accident_points a b c d' e ∧
    calc_accident_points a b c d e ≤ calc_accident_points a b c d e' := by
  unfold calc_accident_points
  refine ⟨by linarith, by linarith, by linarith, by linarith, by linarith,
    by linarith⟩

/-- Witness: C8 instantiated at concrete accident counts. -/
theorem calc_accident_points_nonneg_mono_witness :
    0 ≤ calc_accident_points 1 2 0 3 4 ∧
    calc_accident_points 1 2 0 3 4 ≤ calc_accident_points 2 2 0 3 4 ∧
    calc_accident_points 1 2 0 3 4 ≤ calc_accident_points 1 5 0 3 4 ∧
    calc_accident_points 1 2 0 3 4 ≤ calc_accident_points 1 2 1 3 4 ∧
    calc_accident_points 1 2 0 3 4 ≤ calc_accident_points 1 2 0 4 4 ∧
    calc_accident_points 1 2 0 3 4 ≤ calc_accident_points 1 2 0 3 6 :=
  calc_accident_points_nonneg_mono 1 2 0 3 4 2 5 1 4 6
    (by norm_num) (by norm_num) (by norm_num) (by norm_num) (by norm_num)
    (by norm_num) (by norm_num) (by norm_num) (by norm_num) (by norm_num)

/-- Claim C9: `calculate_quote` is deterministic — identical requests
produce identical results; the embedding is a pure function of the request
and the immutable static tables. -/
theorem calculate_quote_deterministic (q1 q2 : QuoteInputs) (h : q1 = q2) :
    calculate_quote q1 = calculate_quote q2 := by rw [h]

/-- Witness: determinism at the reference input. -/
theorem calculate_quote_deterministic_witness :
    calculate_quote refInput = calculate_quote refInput :=
  calculate_quote_deterministic refInput refInput rfl

/-- Claim C10: for every coverage type present in the tables,
`calc_policy_adjustment` with `add_ons = None` returns exactly the base
weight and `calc_discounts` with `discounts = None` returns exactly 0.0:
in both functions iterating over `None` raises a `TypeError` inside the
`try`, the `except` catches it, and no exception escapes. -/
theorem resolver_none_inputs_recovered :
    (∀ ct obj, lookup POLICY_ADD_ON_MAP ct = some obj →
      calc_policy_adjustment ct none = .ok obj.weight) ∧
    (∀ ct tbl, lookup POLICY_DISCOUNT_MAP ct = some tbl →
      calc_discounts ct none = 0) := by
  constructor
  · intro ct obj h
    have hm := lookup_mem h
    simp [POLICY_ADD_ON_MAP] at hm
    rcases hm with ⟨rfl, rfl⟩ | ⟨rfl, rfl⟩ | ⟨rfl, rfl⟩ <;>
      simp [calc_policy_adjustment, lookup, POLICY_ADD_ON_MAP,
        liabilityObj, fullCoverageObj, collisionOnlyObj, add_on_total] <;>
      norm_num
  · intro ct tbl h
    simp [calc_discounts, h]

/-- Witness: C10 instantiated at `full_coverage`. -/
theorem resolver_none_inputs_recovered_witness :
    calc_policy_adjustment "full_coverage" none = .ok fullCoverageObj.weight ∧
    calc_discounts "full_coverage" none = 0 :=
  ⟨resolver_none_inputs_recovered.1 "full_coverage" fullCoverageObj
      (by simp [lookup, POLICY_ADD_ON_MAP]),
   resolver_none_inputs_recovered.2 "full_coverage" fullCoverageDiscounts
      (by simp [lookup, POLICY_DISCOUNT_MAP])⟩

end InsuranceQuote
